import Mathlib

/-!
Shallow embedding of the ICT trading-bot signal engine (`signal_engine.py`)
and proofs about its specification.

Modelling conventions:
* Prices, volumes and timestamps are exact rationals (`ℚ`); a timestamp is
  seconds since an arbitrary epoch.  Wall-clock instants handed to the
  session gate are natural numbers of seconds; the Python `datetime.time()`
  projection becomes `t % 86400`.
* A pandas value that may be `NaN` is modelled as `Option ℚ`, with `none`
  standing for `NaN`.  Every Python comparison `x > NaN` is `False`, which
  the embedding mirrors by returning `false` whenever a `none` operand is
  consulted.
* `DataFrame` rows before validation are `RawRow` (OHLC fields may be
  `none` = NaN); after `validate_dataframe` succeeds they become `Candle`
  with total fields.
* Python exceptions that `generate_signal` catches (its outer
  `try/except` returns `None` on any error) are modelled by returning
  `none` on the corresponding branch.
-/

namespace ICT

/-- A validated OHLCV candle (one row of the DataFrame after
`validate_dataframe` has ruled out NaN in the OHLC columns). -/
structure Candle where
  time   : ℚ
  open_  : ℚ
  high   : ℚ
  low    : ℚ
  close  : ℚ
  volume : ℚ
deriving Repr, DecidableEq

/-- A raw DataFrame row: OHLC cells may be NaN (`none`). -/
structure RawRow where
  time   : ℚ
  open_  : Option ℚ
  high   : Option ℚ
  low    : Option ℚ
  close  : Option ℚ
  volume : ℚ
deriving Repr, DecidableEq

/-- A raw DataFrame: column presence flags plus its rows.
`hasOHLC` models `all(col in df.columns for col in required_columns)`;
`hasDatetimeIndex` models `isinstance(df.index, pd.DatetimeIndex)`. -/
structure Frame where
  hasOHLC          : Bool
  hasDatetimeIndex : Bool
  rows             : List RawRow
deriving Repr, DecidableEq

/-- The argument of `generate_signal`: either not a DataFrame at all
(`isinstance` check fails) or a raw frame. -/
inductive GSInput where
  | notAFrame : GSInput
  | frame     : Frame → GSInput
deriving Repr, DecidableEq

/-- Directional tag used by the FVG / order-block / BOS / CHoCH events
(the Python dicts' `"type"` field, `"bullish"` / `"bearish"`). -/
inductive Dir where
  | bullish  : Dir
  | bearish  : Dir
deriving Repr, DecidableEq

/-- Side of a liquidity pool (`"sell-side"` / `"buy-side"`). -/
inductive PoolSide where
  | sellSide : PoolSide
  | buySide  : PoolSide
deriving Repr, DecidableEq

/-- Trade direction of an emitted signal (`"BUY"` / `"SELL"`). -/
inductive Direction where
  | BUY  : Direction
  | SELL : Direction
deriving Repr, DecidableEq

/-! ### Session gate (`is_in_kill_zone`) -/

/-- Seconds-in-day of a wall-clock instant (Python `check_time.time()`). -/
def timeOfDay (t : Nat) : Nat := t % 86400

/-- `is_in_kill_zone`: London window 02:00–05:00 (7200–18000 s), New York
window 08:30–11:30 (30600–41400 s).  The source compares with `<=` on both
ends, so both windows are closed intervals. -/
def is_in_kill_zone (t : Nat) : Bool :=
  let ct := timeOfDay t
  (decide (7200 ≤ ct) && decide (ct ≤ 18000)) ||
    (decide (30600 ≤ ct) && decide (ct ≤ 41400))

/-! ### List helpers mirroring pandas slicing and reductions -/

/-- `df.iloc[a:b]`. -/
def slice (df : List Candle) (a b : Nat) : List Candle :=
  (df.drop a).take (b - a)

/-- The `High` column of a candle list. -/
def highs (df : List Candle) : List ℚ := df.map (·.high)

/-- The `Low` column of a candle list. -/
def lows (df : List Candle) : List ℚ := df.map (·.low)

/-- `series.max()`: `none` on an empty slice (pandas yields NaN there, and
every comparison against that NaN is `False`). -/
def listMax : List ℚ → Option ℚ
  | [] => none
  | x :: xs =>
    match listMax xs with
    | none => some x
    | some m => some (max x m)

/-- `series.min()`, same NaN convention as `listMax`. -/
def listMin : List ℚ → Option ℚ
  | [] => none
  | x :: xs =>
    match listMin xs with
    | none => some x
    | some m => some (min x m)

/-- `series.rolling(w).mean().iloc[i]`: the mean of the `w` entries ending
at `i`; `none` (NaN) while fewer than `w` entries have accumulated or `i`
is out of range. -/
def rollingMean (xs : List ℚ) (w i : Nat) : Option ℚ :=
  if i + 1 < w ∨ xs.length ≤ i then none
  else some ((((List.range w).map (fun k => xs.getD (i + 1 - w + k) 0)).sum) / (w : ℚ))

/-! ### ATR (`calculate_atr`) -/

/-- Per-row true range.  Row 0 has no previous close, so pandas' `shift()`
makes `high_close`/`low_close` NaN there and the row-wise `max` (which
skips NaN) degenerates to `high - low`. -/
def true_range (df : List Candle) : Nat → ℚ
  | 0 =>
    match df[0]? with
    | some c => c.high - c.low
    | none => 0
  | i + 1 =>
    match df[i+1]?, df[i]? with
    | some c, some p => max (c.high - c.low) (max |c.high - p.close| |c.low - p.close|)
    | some c, none => c.high - c.low
    | _, _ => 0

/-- The whole true-range column. -/
def trueRanges (df : List Candle) : List ℚ :=
  (List.range df.length).map (true_range df)

/-- `calculate_atr(df, period).iloc[i]` as an `Option` (NaN while the
rolling window is not yet full). -/
def atr (df : List Candle) (period i : Nat) : Option ℚ :=
  rollingMean (trueRanges df) period i

/-- `calculate_atr(df).iloc[-1]` (default period 14). -/
def atrLast (df : List Candle) : Option ℚ :=
  atr df 14 (df.length - 1)

/-! ### Liquidity pools (`detect_liquidity_pools`) -/

/-- A liquidity-pool event.  `idx` is the positional index `i` of the swing
candle (its `time` field in the Python dict is `df.index[i]`). -/
structure Pool where
  side  : PoolSide
  idx   : Nat
  price : ℚ
deriving Repr, DecidableEq

/-- Swing-high test at index `i`: the high strictly exceeds the maximum
high of the `lookback` candles before and after. -/
def isSwingHigh (df : List Candle) (lookback i : Nat) : Bool :=
  match df[i]?, listMax (highs (slice df (i - lookback) i)),
        listMax (highs (slice df (i + 1) (i + lookback + 1))) with
  | some c, some m1, some m2 => decide (m1 < c.high) && decide (m2 < c.high)
  | _, _, _ => false

/-- Swing-low test at index `i`, mirror of `isSwingHigh`. -/
def isSwingLow (df : List Candle) (lookback i : Nat) : Bool :=
  match df[i]?, listMin (lows (slice df (i - lookback) i)),
        listMin (lows (slice df (i + 1) (i + lookback + 1))) with
  | some c, some m1, some m2 => decide (c.low < m1) && decide (c.low < m2)
  | _, _, _ => false

/-- The pools appended at one loop index (sell-side check first, then
buy-side, exactly as in the source). -/
def poolsAt (df : List Candle) (lookback i : Nat) : List Pool :=
  match df[i]? with
  | none => []
  | some c =>
    (if isSwingHigh df lookback i then [⟨.sellSide, i, c.high⟩] else []) ++
      (if isSwingLow df lookback i then [⟨.buySide, i, c.low⟩] else [])

/-- `detect_liquidity_pools(df, lookback)`: loop over
`range(lookback, len(df) - lookback)`. -/
def detect_liquidity_pools (df : List Candle) (lookback : Nat) : List Pool :=
  ((List.range df.length).filter
      (fun i => decide (lookback ≤ i) && decide (i + lookback < df.length))).flatMap
    (poolsAt df lookback)

/-- Price negation of one candle: high and low swap roles. -/
def negateCandle (c : Candle) : Candle :=
  { time := c.time, open_ := -c.open_, high := -c.low, low := -c.high,
    close := -c.close, volume := c.volume }

/-- Mirror a whole series top-to-bottom. -/
def negateSeries (df : List Candle) : List Candle := df.map negateCandle

/-- Swap a pool's classification and negate its price (what mirroring a
series is expected to do to its pools). -/
def swapPool (p : Pool) : Pool :=
  match p.side with
  | .sellSide => ⟨.buySide, p.idx, -p.price⟩
  | .buySide => ⟨.sellSide, p.idx, -p.price⟩

/-! ### Fair-value gaps (`detect_fvg`) -/

/-- An FVG event.  `startIdx` is the loop index `i` of the 3-candle window
`(i, i+1, i+2)`; the Python dict's `start_time` / `end_time` are the
timestamps of candles `startIdx` / `endIdx`. -/
structure FVG where
  kind     : Dir
  startIdx : Nat
  endIdx   : Nat
  low      : ℚ
  high     : ℚ
  gap_size : ℚ
deriving Repr, DecidableEq

/-- Bullish FVG condition for one window (c1, c2, c3) with ATR value `a`. -/
def bullishFVGcond (c1 c2 c3 : Candle) (a : ℚ) : Bool :=
  decide (c1.high < c3.low) && decide (c1.high < c2.low) &&
    decide (c2.high < c3.low) && decide ((0.5 : ℚ) * a < c3.low - c1.high)

/-- Bearish FVG condition, the mirror of `bullishFVGcond`. -/
def bearishFVGcond (c1 c2 c3 : Candle) (a : ℚ) : Bool :=
  decide (c3.high < c1.low) && decide (c2.high < c1.low) &&
    decide (c3.high < c2.low) && decide ((0.5 : ℚ) * a < c1.low - c3.high)

/-- The FVG events appended for window start `i`.  The source skips the
window when `i < 13` (ATR not yet defined), which coincides with
`atr df 14 i = none`; both checks are independent `if`s. -/
def fvgAt (df : List Candle) (i : Nat) : List FVG :=
  match df[i]?, df[i+1]?, df[i+2]?, atr df 14 i with
  | some c1, some c2, some c3, some a =>
    (if bullishFVGcond c1 c2 c3 a then
        [⟨.bullish, i, i + 2, c3.low, c1.high, c3.low - c1.high⟩]
      else []) ++
      (if bearishFVGcond c1 c2 c3 a then
        [⟨.bearish, i, i + 2, c3.high, c1.low, c1.low - c3.high⟩]
      else [])
  | _, _, _, _ => []

/-- `detect_fvg(df)`: loop over `range(len(df) - 2)`. -/
def detect_fvg (df : List Candle) : List FVG :=
  (List.range (df.length - 2)).flatMap (fvgAt df)

/-! ### Order blocks (`detect_order_blocks`) -/

/-- An order-block event.  `idx` is the index of the **prev** candle
`i - 1` (the block anchor; the Python dict's `time` is that candle's
timestamp) and the OHLC fields are the prev candle's. -/
structure OrderBlock where
  kind     : Dir
  idx      : Nat
  open_    : ℚ
  close    : ℚ
  high     : ℚ
  low      : ℚ
  strength : ℚ
deriving Repr, DecidableEq

/-- `df['Volume'].rolling(20).mean().iloc[i]` (NaN → `none`). -/
def avgVolume (df : List Candle) (i : Nat) : Option ℚ :=
  rollingMean (df.map (·.volume)) 20 i

/-- The volume gate `current_volume > avg_volume * m`.  A NaN average
(window not yet full) makes the Python comparison `False`. -/
def volGate (cv : ℚ) (av : Option ℚ) (m : ℚ) : Bool :=
  match av with
  | some a => decide (a * m < cv)
  | none => false

/-- `current_volume / avg_volume if avg_volume > 0 else 1`; a NaN average
fails the `> 0` test, giving the fallback 1. -/
def obStrength (cv : ℚ) (av : Option ℚ) : ℚ :=
  match av with
  | some a => if 0 < a then cv / a else 1
  | none => 1

/-- The price/shape part of the bullish order-block condition (everything
except the volume gate): prev candle bearish, current bullish, momentum
close above prev high, next candle's low accepted above current low. -/
def bullishOBshape (p c n : Candle) : Bool :=
  decide (p.close < p.open_) && decide (c.open_ < c.close) &&
    decide (p.high < c.close) && decide (c.low < n.low)

/-- The price/shape part of the bearish order-block condition. -/
def bearishOBshape (p c n : Candle) : Bool :=
  decide (p.open_ < p.close) && decide (c.close < c.open_) &&
    decide (c.close < p.low) && decide (n.high < c.high)

/-- Order-block events appended at loop index `i` (bullish first, bearish
only via `elif`). -/
def obAt (df : List Candle) (i : Nat) : List OrderBlock :=
  match df[i-1]?, df[i]?, df[i+1]? with
  | some p, some c, some n =>
    if bullishOBshape p c n && volGate c.volume (avgVolume df i) 1.5 then
      [⟨.bullish, i - 1, p.open_, p.close, p.high, p.low,
        obStrength c.volume (avgVolume df i)⟩]
    else if bearishOBshape p c n && volGate c.volume (avgVolume df i) 1.5 then
      [⟨.bearish, i - 1, p.open_, p.close, p.high, p.low,
        obStrength c.volume (avgVolume df i)⟩]
    else []
  | _, _, _ => []

/-- `detect_order_blocks(df)`: loop over `range(1, len(df) - 1)` (the
`next_candle is None` guard in the source is dead code in that range). -/
def detect_order_blocks (df : List Candle) : List OrderBlock :=
  ((List.range df.length).filter
      (fun i => decide (1 ≤ i) && decide (i + 1 < df.length))).flatMap (obAt df)

/-! ### Break of structure (`detect_bos`) -/

/-- A BOS event at loop index `idx`. -/
structure BOS where
  kind        : Dir
  idx         : Nat
  break_level : ℚ
  strength    : ℚ
deriving Repr, DecidableEq

/-- BOS events appended at loop index `i`.  The source compares against
possibly-NaN `prev_high`/`prev_low` (empty slice), NaN average volume and
NaN ATR; each such comparison is `False`, so collapsing all the `none`
cases to `[]` is faithful (the prior-range max and min are NaN together,
and each arm of the conjunction consults every optional value). -/
def bosAt (df : List Candle) (lookback i : Nat) : List BOS :=
  match df[i]?, listMax (highs (slice df (i - lookback) i)),
        listMin (lows (slice df (i - lookback) i)),
        atr df 14 i, avgVolume df i with
  | some cur, some ph, some pl, some a, some av =>
    (if decide (ph < cur.high) && decide (av * 1.2 < cur.volume) &&
          decide ((0.5 : ℚ) * a < cur.high - ph) then
        [⟨.bullish, i, ph, (cur.high - ph) / a⟩]
      else []) ++
      (if decide (cur.low < pl) && decide (av * 1.2 < cur.volume) &&
            decide ((0.5 : ℚ) * a < pl - cur.low) then
        [⟨.bearish, i, pl, (pl - cur.low) / a⟩]
      else [])
  | _, _, _, _, _ => []

/-- `detect_bos(df, lookback)`: loop over `range(lookback, len(df))`. -/
def detect_bos (df : List Candle) (lookback : Nat) : List BOS :=
  ((List.range df.length).filter (fun i => decide (lookback ≤ i))).flatMap
    (bosAt df lookback)

/-! ### Change of character (`detect_choch`) -/

/-- A CHoCH event at loop index `idx`. -/
structure CHoCH where
  kind        : Dir
  idx         : Nat
  break_level : ℚ
  strength    : ℚ
deriving Repr, DecidableEq

/-- CHoCH events appended at loop index `i` (bullish first, bearish via
`elif`).  Window 1 is `df[i-2L : i-L]`, window 2 is `df[i-L : i]`; their
swing extrema are NaN exactly when `lookback = 0`, and the NaN / NaN-ATR
comparisons are `False`, so the `none` cases collapse to `[]`. -/
def chochAt (df : List Candle) (lookback i : Nat) : List CHoCH :=
  match df[i]?, listMax (highs (slice df (i - 2 * lookback) (i - lookback))),
        listMin (lows (slice df (i - 2 * lookback) (i - lookback))),
        listMax (highs (slice df (i - lookback) i)),
        listMin (lows (slice df (i - lookback) i)), atr df 14 i with
  | some cur, some sh1, some sl1, some sh2, some sl2, some a =>
    if decide (sl2 < sl1) && decide (sh2 < cur.close) &&
        decide ((0.3 : ℚ) * a < cur.close - sh2) then
      [⟨.bullish, i, sh2, (cur.close - sh2) / a⟩]
    else if decide (sh1 < sh2) && decide (cur.close < sl2) &&
        decide ((0.3 : ℚ) * a < sl2 - cur.close) then
      [⟨.bearish, i, sl2, (sl2 - cur.close) / a⟩]
    else []
  | _, _, _, _, _, _ => []

/-- `detect_choch(df, lookback)`: loop over `range(lookback*2, len(df))`. -/
def detect_choch (df : List Candle) (lookback : Nat) : List CHoCH :=
  ((List.range df.length).filter (fun i => decide (2 * lookback ≤ i))).flatMap
    (chochAt df lookback)

/-! ### `analyze_candles`, `calculate_risk_params` -/

/-- The dictionary of detector outputs returned by `analyze_candles`. -/
structure Detections where
  liquidity_pools : List Pool
  fvg             : List FVG
  order_blocks    : List OrderBlock
  bos             : List BOS
  choch           : List CHoCH
deriving Repr, DecidableEq

/-- `analyze_candles(df)`.  On a validated candle list the re-validation
inside cannot fail; the `min_required_candles = 50` check still can, and
the surrounding `try/except` then returns the all-empty dictionary. -/
def analyze_candles (df : List Candle) : Detections :=
  if df.length < 50 then ⟨[], [], [], [], []⟩
  else
    ⟨detect_liquidity_pools df 10, detect_fvg df, detect_order_blocks df,
      detect_bos df 5, detect_choch df 5⟩

/-- `calculate_risk_params(df, direction, entry_price, atr_multiple)`.
The source computes `calculate_atr(df).iloc[-1]` and propagates a NaN ATR
into NaN stop/target values, which the caller's `pd.isna` test rejects;
the `none` result models that NaN outcome. -/
def calculate_risk_params (df : List Candle) (direction : Direction)
    (entry_price atr_multiple : ℚ) : Option (ℚ × ℚ) :=
  match atrLast df with
  | none => none
  | some a =>
    match direction with
    | .BUY => some (entry_price - a * atr_multiple, entry_price + a * atr_multiple * 1.5)
    | .SELL => some (entry_price + a * atr_multiple, entry_price - a * atr_multiple * 1.5)

/-! ### Confluence tallying and signal assembly (`generate_signal`) -/

/-- The timestamp of the candle at positional index `idx` (0 when out of
range; never consulted out of range). -/
def timeAt (df : List Candle) (idx : Nat) : ℚ :=
  match df[idx]? with
  | some c => c.time
  | none => 0

/-- `df.index[-1]`. -/
def lastTime (df : List Candle) : ℚ :=
  match df.getLast? with
  | some c => c.time
  | none => 0

/-- Recency filter `(df.index[-1] - t).total_seconds() / 3600 <= hours`. -/
def recentWithin (df : List Candle) (t hours : ℚ) : Bool :=
  decide ((lastTime df - t) / 3600 ≤ hours)

/-- One tallying loop: for each event direction, append the
`"<KIND>_<direction>"` tag and bump the matching counter.  State is
`(bullish_count, bearish_count, confluences)`. -/
def tallyFold (kind : String) (dirs : List Dir) (st : Nat × Nat × List String) :
    Nat × Nat × List String :=
  dirs.foldl
    (fun st d =>
      match st, d with
      | (b, s, confs), .bullish => (b + 1, s, confs ++ [kind ++ "_bullish"])
      | (b, s, confs), .bearish => (b, s + 1, confs ++ [kind ++ "_bearish"]))
    st

/-- The four recency-filtered tallying loops of `generate_signal`, in
source order (FVG, then order blocks, then BOS, then CHoCH). -/
def confluenceState (df : List Candle) (dets : Detections) :
    Nat × Nat × List String :=
  let recentF := dets.fvg.filter (fun e => recentWithin df (timeAt df e.endIdx) 4)
  let recentO := dets.order_blocks.filter (fun e => recentWithin df (timeAt df e.idx) 4)
  let recentB := dets.bos.filter (fun e => recentWithin df (timeAt df e.idx) 2)
  let recentC := dets.choch.filter (fun e => recentWithin df (timeAt df e.idx) 2)
  tallyFold "CHoCH" (recentC.map (·.kind))
    (tallyFold "BOS" (recentB.map (·.kind))
      (tallyFold "OB" (recentO.map (·.kind))
        (tallyFold "FVG" (recentF.map (·.kind)) (0, 0, []))))

/-- The raw (non-deduplicated) confluence tag list `generate_signal`
builds for a validated series. -/
def rawConfluences (df : List Candle) : List String :=
  (confluenceState df (analyze_candles df)).2.2

/-- The final `bullish_count`. -/
def bullishCount (df : List Candle) : Nat :=
  (confluenceState df (analyze_candles df)).1

/-- The final `bearish_count`. -/
def bearishCount (df : List Candle) : Nat :=
  (confluenceState df (analyze_candles df)).2.1

/-- Python `round(x, 5)` (half-to-even on the exact rational value). -/
def py_round5 (q : ℚ) : ℚ :=
  let x := q * 100000
  let f : ℤ := ⌊x⌋
  let r := x - (f : ℚ)
  let n : ℤ :=
    if r < 1 / 2 then f
    else if 1 / 2 < r then f + 1
    else if f % 2 = 0 then f else f + 1
  (n : ℚ) / 100000

/-- The kill-zone label computed at assembly time:
`"London" if time(2,0) <= now <= time(5,0) else "New York"`. -/
def killZoneLabel (now : Nat) : String :=
  if 7200 ≤ timeOfDay now ∧ timeOfDay now ≤ 18000 then "London" else "New York"

/-- An emitted signal record.  `setup` keeps the deduplicated tag list
(Python builds `" + ".join(set(confluences))`; the join to a display
string is presentation only), `risk_pct` the capped percentage before the
one-decimal display formatting, and `confidenceNum`/`confidenceDen` the
two numbers of the `"k/n confluences"` string. -/
structure Signal where
  asset         : String
  direction     : Direction
  entry         : ℚ
  stop_loss     : ℚ
  take_profit   : ℚ
  kill_zone     : String
  setup         : List String
  risk_pct      : ℚ
  confidenceNum : Nat
  confidenceDen : Nat
deriving Repr, DecidableEq

/-- `validate_dataframe` on one row: all four OHLC cells non-NaN. -/
def parseRow (r : RawRow) : Option Candle :=
  match r.open_, r.high, r.low, r.close with
  | some o, some h, some l, some c => some ⟨r.time, o, h, l, c, r.volume⟩
  | _, _, _, _ => none

/-- The inputs on which `generate_signal` gets past its `isinstance`,
`df.empty` and `validate_dataframe` checks, together with the validated
candle list it then works on.  `none` means one of those checks raises
(and the outer `try/except` turns that into a `None` return). -/
def validInput : GSInput → Option (List Candle)
  | .notAFrame => none
  | .frame f =>
    if f.rows.length = 0 || !f.hasOHLC || !f.hasDatetimeIndex then none
    else f.rows.mapM parseRow

/-- `direction = "BUY" if bullish_count > bearish_count else "SELL"`. -/
def signalDirection (df : List Candle) : Direction :=
  if bearishCount df < bullishCount df then .BUY else .SELL

/-- The body of `generate_signal` after validation succeeded, on the
validated candle list (written with the named tally projections; the
source computes the analysis dictionary and the counters once and reuses
them, and all of these are pure, so the repeated occurrences below denote
the same values).  The `pd.isna(current_price)` check cannot fire on
validated data; the `pd.isna(atr)` check is the `atrLast` match. -/
def signal_core (asset : String) (df : List Candle) (now : Nat) : Option Signal :=
  match df.getLast? with
  | none => none
  | some lastC =>
    match atrLast df with
    | none => none
    | some _ =>
      if 3 ≤ (rawConfluences df).length then
        match calculate_risk_params df (signalDirection df) lastC.close 2 with
        | none => none
        | some (sl, tp) =>
          some
            { asset := asset, direction := signalDirection df,
              entry := py_round5 lastC.close, stop_loss := py_round5 sl,
              take_profit := py_round5 tp,
              kill_zone := killZoneLabel now,
              setup := (rawConfluences df).eraseDups,
              risk_pct := min 1 (|lastC.close - sl| / lastC.close * 100),
              confidenceNum := max (bullishCount df) (bearishCount df),
              confidenceDen := (rawConfluences df).length }
      else none

/-- `generate_signal(asset, df)` evaluated at the wall-clock instant
`now` (the source reads `datetime.now()`; the embedding passes that
single instant explicitly).  Every exception the source raises and
catches internally is a `none` branch. -/
def generate_signal (asset : String) (input : GSInput) (now : Nat) :
    Option Signal :=
  match input with
  | .notAFrame => none
  | .frame f =>
    if f.rows.length = 0 then none
    else if !is_in_kill_zone now then none
    else if !f.hasOHLC || !f.hasDatetimeIndex then none
    else
      match f.rows.mapM parseRow with
      | none => none
      | some df => signal_core asset df now

/-! ### Concrete candle series used to instantiate the theorems -/

/-- Package a validated candle back into a raw DataFrame row. -/
def rowOf (c : Candle) : RawRow :=
  ⟨c.time, some c.open_, some c.high, some c.low, some c.close, c.volume⟩

/-- A well-formed DataFrame holding the given candles. -/
def frameOf (df : List Candle) : Frame :=
  ⟨true, true, df.map rowOf⟩

/-- A flat (zero-volatility) series: 60 identical candles an hour apart. -/
def flatDf : List Candle :=
  (List.range 60).map (fun i => ⟨3600 * i, 100, 100, 100, 100, 1⟩)

/-- The flat series as a `generate_signal` input. -/
def flatInput : GSInput := .frame (frameOf flatDf)

/-- An empty DataFrame (has the OHLC columns, zero rows). -/
def emptyInput : GSInput := .frame ⟨true, true, []⟩

/-- High of candle `i` of `bosDf`: flat at 100, then three 3-point
breakouts at indices 57, 58, 59. -/
def bosHigh (i : Nat) : ℚ :=
  if i = 57 then 103 else if i = 58 then 106 else if i = 59 then 109 else 100

/-- Volume of candle `i` of `bosDf`: a spike on the three breakout bars. -/
def bosVol (i : Nat) : ℚ := if 57 ≤ i then 10 else 1

/-- A 60-candle series engineered to produce exactly three recent bullish
BOS events (at indices 57, 58, 59) and nothing else: raw confluence count
3, all bullish. -/
def bosDf : List Candle :=
  (List.range 60).map
    (fun (i : ℕ) => ⟨((3600 * i : ℕ) : ℚ), bosHigh i - 5/2, bosHigh i,
      bosHigh i - 5, bosHigh i - 5/2, bosVol i⟩)

/-- The BOS series as a `generate_signal` input. -/
def bosInput : GSInput := .frame (frameOf bosDf)

/-- Three candles forming a perfect bullish order-block shape at loop
index 1 (bearish candle, bullish engulfing close above its high, accepted
next low) with positive volume — but only 2 candles of volume history. -/
def obSmall : List Candle :=
  [⟨0, 10, 10, 9, 9, 1⟩, ⟨3600, 10, 11, 10, 11, 5⟩, ⟨7200, 11, 11, 21/2, 11, 1⟩]

/-- 22 candles with the same order-block shape at loop index 20 (anchor
19), now with a full 20-bar volume window and a volume spike. -/
def obBig : List Candle :=
  (List.range 19).map (fun i => (⟨3600 * i, 10, 10, 10, 10, 1⟩ : Candle)) ++
    [⟨3600 * 19, 10, 10, 9, 9, 1⟩, ⟨3600 * 20, 10, 11, 10, 11, 10⟩,
      ⟨3600 * 21, 11, 11, 21/2, 11, 1⟩]

/-- 16 candles with a 3-candle bullish fair-value gap in the window
(13, 14, 15). -/
def fvgSeries : List Candle :=
  (List.range 14).map (fun i => (⟨3600 * i, 19/2, 10, 9, 19/2, 1⟩ : Candle)) ++
    [⟨3600 * 14, 23/2, 12, 11, 23/2, 1⟩, ⟨3600 * 15, 27/2, 14, 13, 27/2, 1⟩]

/-- Session-gate behaviour written from the spec sentence, amended to the
closed intervals the code actually implements: time-of-day in
[02:00, 05:00] or [08:30, 11:30], endpoints included. -/
def kill_zone_spec (t : Nat) : Prop :=
  (7200 ≤ timeOfDay t ∧ timeOfDay t ≤ 18000) ∨
    (30600 ≤ timeOfDay t ∧ timeOfDay t ≤ 41400)

/-!
## Theorems

One theorem per claim of the specification review, with helper lemmas
shared between them.
-/

set_option maxRecDepth 200000

/-- Helper: one tallying pass preserves the invariant
`bullish + bearish = number of appended tags`. -/
theorem tallyFold_inv (kind : String) (dirs : List Dir)
    (st : Nat × Nat × List String) (h : st.1 + st.2.1 = st.2.2.length) :
    (tallyFold kind dirs st).1 + (tallyFold kind dirs st).2.1 =
      (tallyFold kind dirs st).2.2.length := by
  induction dirs generalizing st with
  | nil => simpa [tallyFold] using h
  | cons d ds ih =>
    obtain ⟨b, s, confs⟩ := st
    cases d
    · have hstep : tallyFold kind (Dir.bullish :: ds) (b, s, confs) =
          tallyFold kind ds (b + 1, s, confs ++ [kind ++ "_bullish"]) := rfl
      rw [hstep]
      apply ih
      simp at h ⊢
      omega
    · have hstep : tallyFold kind (Dir.bearish :: ds) (b, s, confs) =
          tallyFold kind ds (b, s + 1, confs ++ [kind ++ "_bearish"]) := rfl
      rw [hstep]
      apply ih
      simp at h ⊢
      omega

/-- C9: throughout confluence tallying, `bullish_count + bearish_count`
equals the length of the raw confluence list, so the confidence numerator
`max(bullish_count, bearish_count)` never exceeds the denominator
`len(confluences)`. -/
theorem c9_tally_counts_sum_to_length (df : List Candle) :
    bullishCount df + bearishCount df = (rawConfluences df).length ∧
      max (bullishCount df) (bearishCount df) ≤ (rawConfluences df).length := by
  have key : (confluenceState df (analyze_candles df)).1 +
      (confluenceState df (analyze_candles df)).2.1 =
      (confluenceState df (analyze_candles df)).2.2.length := by
    unfold confluenceState
    apply tallyFold_inv
    apply tallyFold_inv
    apply tallyFold_inv
    apply tallyFold_inv
    rfl
  refine ⟨key, ?_⟩
  have h1 : bullishCount df ≤ (rawConfluences df).length := by
    unfold bullishCount rawConfluences
    omega
  have h2 : bearishCount df ≤ (rawConfluences df).length := by
    unfold bearishCount rawConfluences
    omega
  exact max_le h1 h2

/-- C3 counterexample: at exactly 05:00 (18000 s into the day) and at
exactly 11:30 (41400 s) the session gate returns `true`, whereas the
claim requires `false` there (it asserts half-open windows). -/
theorem c3_counterexample :
    is_in_kill_zone 18000 = true ∧ is_in_kill_zone 41400 = true :=
  ⟨rfl, rfl⟩

/-- C3 (amended): the session gate returns true iff the time-of-day lies
in the **closed** interval [02:00, 05:00] or in [08:30, 11:30] — the
source compares with `<=` on both ends, so both boundary instants are
inside, not outside. -/
theorem c3_kill_zone_iff_closed_intervals (t : Nat) :
    is_in_kill_zone t = true ↔ kill_zone_spec t := by
  simp [is_in_kill_zone, kill_zone_spec]

/-- C6: with a positive last ATR, the risk calculator brackets the entry
(`stop_loss < entry < take_profit` for BUY, mirrored for SELL) and the
reward-to-risk ratio is exactly 1.5 in both directions. -/
theorem c6_risk_params_bracket_and_ratio (df : List Candle) (entry a : ℚ)
    (ha : atrLast df = some a) (hpos : 0 < a) :
    (∃ sl tp, calculate_risk_params df .BUY entry 2 = some (sl, tp) ∧
      sl < entry ∧ entry < tp ∧ (tp - entry) / (entry - sl) = 1.5) ∧
    (∃ sl tp, calculate_risk_params df .SELL entry 2 = some (sl, tp) ∧
      tp < entry ∧ entry < sl ∧ (entry - tp) / (sl - entry) = 1.5) := by
  have hne : (a * 2 : ℚ) ≠ 0 := by positivity
  constructor
  · refine ⟨entry - a * 2, entry + a * 2 * 1.5, ?_, by linarith, by linarith, ?_⟩
    · simp [calculate_risk_params, ha]
    · have : entry + a * 2 * 1.5 - entry = a * 2 * 1.5 := by ring
      rw [this]
      have : entry - (entry - a * 2) = a * 2 := by ring
      rw [this]
      field_simp
  · refine ⟨entry + a * 2, entry - a * 2 * 1.5, ?_, by linarith, by linarith, ?_⟩
    · simp [calculate_risk_params, ha]
    · have : entry - (entry - a * 2 * 1.5) = a * 2 * 1.5 := by ring
      rw [this]
      have : entry + a * 2 - entry = a * 2 := by ring
      rw [this]
      field_simp

/-- C6 witness: the concrete 22-candle series `obBig` has last ATR 1/4,
and the BUY levels computed at entry 10 satisfy the theorem's
conclusions. -/
theorem c6_witness :
    atrLast obBig = some (1/4) ∧ (0 : ℚ) < 1/4 ∧
      (∃ sl tp, calculate_risk_params obBig .BUY 10 2 = some (sl, tp) ∧
        sl < 10 ∧ 10 < tp ∧ (tp - 10) / (10 - sl) = 1.5) := by
  have h : atrLast obBig = some (1/4) := by with_unfolding_all rfl
  exact ⟨h, by norm_num,
    (c6_risk_params_bracket_and_ratio obBig 10 (1/4) h (by norm_num)).1⟩

/-- Helper: what membership in `detect_fvg` tells us about the event and
its 3-candle window. -/
theorem mem_detect_fvg {df : List Candle} {e : FVG} (h : e ∈ detect_fvg df) :
    ∃ c1 c2 c3 a, df[e.startIdx]? = some c1 ∧ df[e.startIdx + 1]? = some c2 ∧
      df[e.startIdx + 2]? = some c3 ∧ atr df 14 e.startIdx = some a ∧
      ((e.kind = .bullish ∧ bullishFVGcond c1 c2 c3 a = true) ∨
        (e.kind = .bearish ∧ bearishFVGcond c1 c2 c3 a = true)) := by
  unfold detect_fvg at h
  obtain ⟨i, _, hmem⟩ := List.mem_flatMap.mp h
  unfold fvgAt at hmem
  split at hmem
  case _ c1 c2 c3 a h1 h2 h3 h4 =>
    rw [List.mem_append] at hmem
    rcases hmem with hm | hm
    · split at hm
      case isTrue hcond =>
        simp only [List.mem_singleton] at hm
        subst hm
        exact ⟨c1, c2, c3, a, h1, h2, h3, h4, Or.inl ⟨rfl, hcond⟩⟩
      case isFalse => simp at hm
    · split at hm
      case isTrue hcond =>
        simp only [List.mem_singleton] at hm
        subst hm
        exact ⟨c1, c2, c3, a, h1, h2, h3, h4, Or.inr ⟨rfl, hcond⟩⟩
      case isFalse => simp at hm
  case _ => simp at hmem

/-- C7: when every candle satisfies `low ≤ high`, no 3-candle window is
simultaneously a bullish and a bearish FVG: any two events `detect_fvg`
emits for the same window start have the same kind. -/
theorem c7_fvg_window_never_both (df : List Candle)
    (hinv : ∀ c ∈ df, c.low ≤ c.high) :
    ∀ e1 e2, e1 ∈ detect_fvg df → e2 ∈ detect_fvg df →
      e1.startIdx = e2.startIdx → e1.kind = e2.kind := by
  intro e1 e2 h1 h2 heq
  obtain ⟨c1, c2, c3, a, hc1, hc2, hc3, _, hk1⟩ := mem_detect_fvg h1
  obtain ⟨d1, d2, d3, b, hd1, hd2, hd3, _, hk2⟩ := mem_detect_fvg h2
  rw [heq] at hc1 hc3
  rw [hc1] at hd1
  rw [hc3] at hd3
  injection hd1 with hd1
  injection hd3 with hd3
  subst hd1
  subst hd3
  rcases hk1 with ⟨hkind1, hb1⟩ | ⟨hkind1, hb1⟩ <;>
    rcases hk2 with ⟨hkind2, hb2⟩ | ⟨hkind2, hb2⟩
  · rw [hkind1, hkind2]
  · exfalso
    have hm1 : c1 ∈ df := List.getElem?_mem hc1
    have hm3 : c3 ∈ df := List.getElem?_mem hc3
    have i1 := hinv c1 hm1
    have i3 := hinv c3 hm3
    unfold bullishFVGcond at hb1
    unfold bearishFVGcond at hb2
    simp only [Bool.and_eq_true, decide_eq_true_eq] at hb1 hb2
    linarith [hb1.1.1.1, hb2.1.1.1]
  · exfalso
    have hm1 : c1 ∈ df := List.getElem?_mem hc1
    have hm3 : c3 ∈ df := List.getElem?_mem hc3
    have i1 := hinv c1 hm1
    have i3 := hinv c3 hm3
    unfold bullishFVGcond at hb2
    unfold bearishFVGcond at hb1
    simp only [Bool.and_eq_true, decide_eq_true_eq] at hb1 hb2
    linarith [hb1.1.1.1, hb2.1.1.1]
  · rw [hkind1, hkind2]

/-- C7 witness: `fvgSeries` satisfies the candle invariant and emits a
bullish FVG for window start 13; the theorem applied to that event (twice)
closes with its kind equal to itself. -/
theorem c7_witness :
    (∀ c ∈ fvgSeries, c.low ≤ c.high) ∧
      (⟨.bullish, 13, 15, 13, 10, 3⟩ : FVG) ∈ detect_fvg fvgSeries ∧
      FVG.kind ⟨.bullish, 13, 15, 13, 10, 3⟩ =
        FVG.kind ⟨.bullish, 13, 15, 13, 10, 3⟩ := by
  have hinv : ∀ c ∈ fvgSeries, c.low ≤ c.high := by decide
  have hmem : (⟨.bullish, 13, 15, 13, 10, 3⟩ : FVG) ∈ detect_fvg fvgSeries := by
    have : detect_fvg fvgSeries = [⟨.bullish, 13, 15, 13, 10, 3⟩] := by
      with_unfolding_all rfl
    rw [this]
    exact List.mem_singleton.mpr rfl
  exact ⟨hinv, hmem,
    c7_fvg_window_never_both fvgSeries hinv _ _ hmem hmem rfl⟩

/-- Helper: what membership in `detect_order_blocks` tells us: the loop
index `i = e.idx + 1` carries a current candle whose volume passed the
gate, and the event's strength is the gate's ratio. -/
theorem mem_detect_order_blocks {df : List Candle} {e : OrderBlock}
    (h : e ∈ detect_order_blocks df) :
    ∃ c, df[e.idx + 1]? = some c ∧ 1 ≤ e.idx + 1 ∧
      volGate c.volume (avgVolume df (e.idx + 1)) 1.5 = true ∧
      e.strength = obStrength c.volume (avgVolume df (e.idx + 1)) := by
  unfold detect_order_blocks at h
  obtain ⟨i, hi, hmem⟩ := List.mem_flatMap.mp h
  rw [List.mem_filter] at hi
  have hi1 : 1 ≤ i := by
    have := hi.2
    simp only [Bool.and_eq_true, decide_eq_true_eq] at this
    exact this.1
  unfold obAt at hmem
  split at hmem
  case _ p c n h1 h2 h3 =>
    have hidx : i - 1 + 1 = i := by omega
    split at hmem
    case isTrue hcond =>
      simp only [List.mem_singleton] at hmem
      subst hmem
      simp only [Bool.and_eq_true] at hcond
      exact ⟨c, by rw [hidx]; exact h2, by omega, by rw [hidx]; exact hcond.2, by rw [hidx]⟩
    case isFalse =>
      split at hmem
      case isTrue hcond =>
        simp only [List.mem_singleton] at hmem
        subst hmem
        simp only [Bool.and_eq_true] at hcond
        exact ⟨c, by rw [hidx]; exact h2, by omega, by rw [hidx]; exact hcond.2, by rw [hidx]⟩
      case isFalse => simp at hmem
  case _ => simp at hmem

/-- Helper: a defined rolling mean bounds each in-window term; in
particular the entry at the window's right edge `i` satisfies
`xs.getD i 0 ≤ w * mean` when all entries are nonnegative. -/
theorem rollingMean_right_edge_le {xs : List ℚ} {w i : Nat} {a : ℚ}
    (hw : 0 < w) (h : rollingMean xs w i = some a) (hnn : ∀ x ∈ xs, 0 ≤ x) :
    xs.getD i 0 ≤ w * a := by
  unfold rollingMean at h
  split at h
  case isTrue => exact absurd h (by simp)
  case isFalse hc =>
    injection h with h
    have hiw : w ≤ i + 1 := by omega
    set l := (List.range w).map (fun k => xs.getD (i + 1 - w + k) 0) with hl
    have hmem : xs.getD i 0 ∈ l := by
      rw [hl]
      apply List.mem_map.mpr
      refine ⟨w - 1, List.mem_range.mpr (by omega), ?_⟩
      congr 1
      omega
    have hnn' : ∀ x ∈ l, 0 ≤ x := by
      intro x hx
      rw [hl] at hx
      obtain ⟨k, _, hk⟩ := List.mem_map.mp hx
      subst hk
      by_cases hlt : i + 1 - w + k < xs.length
      · rw [List.getD_eq_getElem _ _ hlt]
        exact hnn _ (List.getElem_mem hlt)
      · rw [List.getD_eq_default _ _ (by omega)]
    have hsum : xs.getD i 0 ≤ l.sum := List.single_le_sum hnn' _ hmem
    rw [← h]
    have hwq : (0 : ℚ) < (w : ℚ) := by exact_mod_cast hw
    rw [mul_div_cancel₀ _ (ne_of_gt hwq)]
    exact hsum

/-- Helper: a passed volume gate at a full window forces a strictly
positive average (the current candle's volume is inside its own trailing
window), hence the emitted strength is the genuine ratio `cv / avg`. -/
theorem volGate_avg_pos {df : List Candle} {i : Nat} {c : Candle} {a : ℚ}
    (hc : df[i]? = some c) (hnn : ∀ x ∈ df, 0 ≤ x.volume)
    (hav : avgVolume df i = some a)
    (hg : volGate c.volume (avgVolume df i) 1.5 = true) : 0 < a := by
  have hgate : a * 1.5 < c.volume := by
    rw [hav] at hg
    unfold volGate at hg
    simpa using hg
  have hvol : (df.map (·.volume)).getD i 0 = c.volume := by
    have hlt : i < df.length := (List.getElem?_eq_some_iff.mp hc).1
    rw [List.getD_eq_getElem _ _ (by simpa using hlt)]
    rw [List.getElem_map]
    have := List.getElem?_eq_some_iff.mp hc
    obtain ⟨h1, h2⟩ := this
    rw [h2]
  have hedge : (df.map (·.volume)).getD i 0 ≤ 20 * a := by
    apply rollingMean_right_edge_le (by norm_num) hav
    intro x hx
    obtain ⟨cc, hcc, hccx⟩ := List.mem_map.mp hx
    subst hccx
    exact hnn cc hcc
  rw [hvol] at hedge
  nlinarith

/-- C10: with nonnegative volumes, every emitted order block has strength
strictly greater than 1.5 — the fallback strength 1 is unreachable
because the current volume lies inside its own trailing 20-bar window,
so a zero (or undefined) average makes the volume gate fail. -/
theorem c10_ob_strength_exceeds_gate (df : List Candle)
    (hnn : ∀ c ∈ df, 0 ≤ c.volume) :
    ∀ e ∈ detect_order_blocks df, (1.5 : ℚ) < e.strength := by
  intro e he
  obtain ⟨c, hc, _, hg, hs⟩ := mem_detect_order_blocks he
  cases hav : avgVolume df (e.idx + 1) with
  | none => rw [hav] at hg; simp [volGate] at hg
  | some a =>
    have hpos : 0 < a := volGate_avg_pos hc hnn hav hg
    have hgate : a * 1.5 < c.volume := by
      rw [hav] at hg
      unfold volGate at hg
      simpa using hg
    rw [hs, hav]
    simp only [obStrength]
    rw [if_pos hpos]
    rw [lt_div_iff₀ hpos]
    linarith

/-- C10 witness: `obBig` has nonnegative volumes and emits one order
block, whose strength 200/29 the theorem bounds below by 1.5. -/
theorem c10_witness :
    (∀ c ∈ obBig, 0 ≤ c.volume) ∧
      (⟨.bullish, 19, 10, 9, 10, 9, 200/29⟩ : OrderBlock) ∈ detect_order_blocks obBig ∧
      (1.5 : ℚ) < (200 : ℚ) / 29 := by
  have hnn : ∀ c ∈ obBig, 0 ≤ c.volume := by decide
  have hmem : (⟨.bullish, 19, 10, 9, 10, 9, 200/29⟩ : OrderBlock) ∈
      detect_order_blocks obBig := by
    have : detect_order_blocks obBig = [⟨.bullish, 19, 10, 9, 10, 9, 200/29⟩] := by
      with_unfolding_all rfl
    rw [this]
    exact List.mem_singleton.mpr rfl
  exact ⟨hnn, hmem, by
    simpa using c10_ob_strength_exceeds_gate obBig hnn _ hmem⟩

/-- C4 counterexample: in `obSmall` the loop index 1 has only 2 candles of
volume history (far fewer than 20); every non-volume bullish order-block
condition holds there and the current volume is positive, yet
`detect_order_blocks` emits nothing — the NaN rolling average makes the
volume gate comparison `False` and suppresses detection, instead of a
zero average disabling the gate as the claim states. -/
theorem c4_counterexample :
    (∃ p c n, obSmall[0]? = some p ∧ obSmall[1]? = some c ∧
      obSmall[2]? = some n ∧ bullishOBshape p c n = true ∧ 0 < c.volume) ∧
      avgVolume obSmall 1 = none ∧
      detect_order_blocks obSmall = [] := by
  refine ⟨⟨⟨0, 10, 10, 9, 9, 1⟩, ⟨3600, 10, 11, 10, 11, 5⟩,
    ⟨7200, 11, 11, 21/2, 11, 1⟩, rfl, rfl, rfl, by with_unfolding_all decide,
    by norm_num⟩, ?_, ?_⟩
  · with_unfolding_all rfl
  · with_unfolding_all rfl

/-- C4 (amended): at every index with fewer than 20 candles of trailing
volume history the 20-period rolling average is undefined (pandas NaN,
embedded as `none`), and since a comparison against NaN is `False` the
volume gate fails, so `detect_order_blocks` never emits an event anchored
below index 18 — detection there is suppressed (no exception is raised),
not enabled by a zero average. -/
theorem c4_short_window_suppresses_detection :
    (∀ (df : List Candle) (i : Nat), i + 1 < 20 → avgVolume df i = none) ∧
      (∀ (df : List Candle), ∀ e ∈ detect_order_blocks df, 18 ≤ e.idx) := by
  constructor
  · intro df i hi
    unfold avgVolume rollingMean
    rw [if_pos (Or.inl hi)]
  · intro df e he
    obtain ⟨c, hc, _, hg, _⟩ := mem_detect_order_blocks he
    cases hav : avgVolume df (e.idx + 1) with
    | none => rw [hav] at hg; simp [volGate] at hg
    | some a =>
      unfold avgVolume rollingMean at hav
      split at hav
      case isTrue => exact absurd hav (by simp)
      case isFalse hcond =>
        push_neg at hcond
        omega

/-- C4 witness: the first part applied at `obSmall`, index 1 (window of
2 < 20 candles), and the second applied to the order block `obBig`
emits at anchor index 19. -/
theorem c4_witness :
    avgVolume obSmall 1 = none ∧
      18 ≤ (OrderBlock.idx ⟨.bullish, 19, 10, 9, 10, 9, 200/29⟩) := by
  constructor
  · exact c4_short_window_suppresses_detection.1 obSmall 1 (by norm_num)
  · apply c4_short_window_suppresses_detection.2 obBig
    have : detect_order_blocks obBig = [⟨.bullish, 19, 10, 9, 10, 9, 200/29⟩] := by
      with_unfolding_all rfl
    rw [this]
    exact List.mem_singleton.mpr rfl

/-- Helper: unpacking a successful validation. -/
theorem validInput_some_elim {f : Frame} {df : List Candle}
    (h : validInput (.frame f) = some df) :
    f.rows.length ≠ 0 ∧ f.hasOHLC = true ∧ f.hasDatetimeIndex = true ∧
      f.rows.mapM parseRow = some df := by
  have h' : (if (decide (f.rows.length = 0) || !f.hasOHLC || !f.hasDatetimeIndex) = true
      then none else f.rows.mapM parseRow) = some df := h
  by_cases h0 : f.rows.length = 0 <;>
    cases hA : f.hasOHLC <;> cases hB : f.hasDatetimeIndex <;>
      simp_all

/-- Helper: `mapM parseRow` preserves length. -/
theorem mapM_parseRow_length {rs : List RawRow} {df : List Candle}
    (h : rs.mapM parseRow = some df) : df.length = rs.length := by
  induction rs generalizing df with
  | nil =>
    simp only [List.mapM_nil, pure, Option.some_inj] at h
    subst h
    rfl
  | cons r rs ih =>
    rw [List.mapM_cons] at h
    cases hr : parseRow r with
    | none => rw [hr] at h; simp at h
    | some c =>
      rw [hr] at h
      cases hm : rs.mapM parseRow with
      | none => rw [hm] at h; simp at h
      | some tl =>
        rw [hm] at h
        simp at h
        subst h
        simp [ih hm]

/-- Helper: with the session gate closed, `generate_signal` returns
`none` on every input. -/
theorem generate_signal_closed_gate (asset : String) (input : GSInput)
    (now : Nat) (hk : is_in_kill_zone now = false) :
    generate_signal asset input now = none := by
  cases input with
  | notAFrame => rfl
  | frame f =>
    show (if f.rows.length = 0 then none
      else if (!is_in_kill_zone now) = true then none
      else if (!f.hasOHLC || !f.hasDatetimeIndex) = true then none
      else match f.rows.mapM parseRow with
        | none => none
        | some df => signal_core asset df now) = none
    by_cases h0 : f.rows.length = 0
    · rw [if_pos h0]
    · rw [if_neg h0, hk]
      rfl

/-- Helper: with the gate open and validation passing, `generate_signal`
is its post-validation body. -/
theorem generate_signal_eq_core {f : Frame} {df : List Candle}
    (asset : String) (now : Nat) (h : validInput (.frame f) = some df)
    (hk : is_in_kill_zone now = true) :
    generate_signal asset (.frame f) now = signal_core asset df now := by
  obtain ⟨h0, h1, h2, h3⟩ := validInput_some_elim h
  show (if f.rows.length = 0 then none
    else if (!is_in_kill_zone now) = true then none
    else if (!f.hasOHLC || !f.hasDatetimeIndex) = true then none
    else match f.rows.mapM parseRow with
      | none => none
      | some df => signal_core asset df now) = signal_core asset df now
  rw [if_neg h0, hk]
  simp only [Bool.not_true, Bool.false_eq_true, if_false]
  rw [h1, h2]
  simp only [Bool.not_true, Bool.or_self, Bool.false_eq_true, if_false]
  rw [h3]

/-- Helper: the tally of an empty detection dictionary is zero counts and
no tags. -/
theorem confluenceState_empty (df : List Candle) :
    confluenceState df ⟨[], [], [], [], []⟩ = (0, 0, []) := rfl

/-- Helper: on a validated series shorter than 50 candles,
`analyze_candles` fails its minimum-data check internally and returns the
all-empty dictionary, so the post-validation body finds zero confluences
and returns `none`. -/
theorem signal_core_short (asset : String) (df : List Candle) (now : Nat)
    (hlen : df.length < 50) : signal_core asset df now = none := by
  have hana : analyze_candles df = ⟨[], [], [], [], []⟩ := by
    unfold analyze_candles
    rw [if_pos hlen]
  have hraw : rawConfluences df = [] := by
    unfold rawConfluences
    rw [hana, confluenceState_empty]
  unfold signal_core
  cases df.getLast? with
  | none => rfl
  | some lastC =>
    cases atrLast df with
    | none => rfl
    | some a =>
      simp [hraw]

/-- C1 counterexample: a data-quality failure (an empty DataFrame) and a
valid series in which no pattern fires (the flat series) both return the
very same `None`; the caller cannot distinguish the two outcomes, because
`generate_signal` catches every validation error internally. -/
theorem c1_counterexample :
    generate_signal "EURUSD" emptyInput 10800 = none ∧
      generate_signal "EURUSD" flatInput 10800 = none := by
  constructor
  · rfl
  · with_unfolding_all rfl

/-- C1 (amended): every data-quality failure (non-DataFrame input, empty
frame, missing OHLC columns, NaN in OHLC, non-datetime index) is caught
inside `generate_signal` and surfaces as the same plain `none` a pattern
miss produces; a series shorter than 50 candles likewise degrades to the
no-pattern `none`.  No distinct error path reaches the caller — the
distinction exists only in logging. -/
theorem c1_data_quality_errors_swallowed (asset : String) (input : GSInput)
    (now : Nat) :
    (validInput input = none → generate_signal asset input now = none) ∧
      (∀ df, validInput input = some df → df.length < 50 →
        generate_signal asset input now = none) := by
  constructor
  · intro hv
    cases hk : is_in_kill_zone now with
    | false => exact generate_signal_closed_gate asset input now hk
    | true =>
      cases input with
      | notAFrame => rfl
      | frame f =>
        show (if f.rows.length = 0 then none
          else if (!is_in_kill_zone now) = true then none
          else if (!f.hasOHLC || !f.hasDatetimeIndex) = true then none
          else match f.rows.mapM parseRow with
            | none => none
            | some df => signal_core asset df now) = none
        have hv' : (if (decide (f.rows.length = 0) || !f.hasOHLC ||
            !f.hasDatetimeIndex) = true
            then none else f.rows.mapM parseRow) = (none : Option (List Candle)) := hv
        by_cases h0 : f.rows.length = 0
        · rw [if_pos h0]
        · rw [if_neg h0, hk]
          simp only [Bool.not_true, Bool.false_eq_true, if_false]
          cases hA : f.hasOHLC <;> cases hB : f.hasDatetimeIndex <;>
            simp_all
  · intro df hv hlen
    cases hk : is_in_kill_zone now with
    | false => exact generate_signal_closed_gate asset input now hk
    | true =>
      cases input with
      | notAFrame => rfl
      | frame f =>
        rw [generate_signal_eq_core asset now hv hk]
        exact signal_core_short asset df now hlen

/-- C1 witness: the amended theorem applied to the empty frame (a
data-quality failure) and to the 3-candle series `obSmall` (valid but
shorter than 50 candles). -/
theorem c1_witness :
    generate_signal "GBPUSD" emptyInput 7200 = none ∧
      generate_signal "GBPUSD" (.frame (frameOf obSmall)) 7200 = none := by
  constructor
  · exact (c1_data_quality_errors_swallowed "GBPUSD" emptyInput 7200).1 rfl
  · exact (c1_data_quality_errors_swallowed "GBPUSD"
      (.frame (frameOf obSmall)) 7200).2 obSmall (by with_unfolding_all rfl)
      (by norm_num [obSmall])

/-- C2 counterexample: on the flat series the last ATR is 0, and the risk
calculator does **not** reject the zero ATR — it returns
`stop_loss = entry = take_profit = 100`, a zero-width stop, so the claim's
"Risk Calculator must reject emission" mechanism is absent from the code
(no signal appears for a different reason: zero confluences). -/
theorem c2_counterexample :
    atrLast flatDf = some 0 ∧
      calculate_risk_params flatDf .BUY 100 2 = some (100, 100) := by
  constructor
  · with_unfolding_all rfl
  · with_unfolding_all rfl

/-- C2 (amended): for the flat series of 60 identical candles the ATR is
0 at every defined index (and undefined before index 13), and
`generate_signal` emits no signal — but the rejection happens because the
confluence list stays empty (no detector can fire on a flat series), not
in the Risk Calculator, which with zero ATR would happily return a
zero-width stop (see the counterexample). -/
theorem c2_flat_series_emits_nothing :
    (∀ i, i < 60 → atr flatDf 14 i = (if 13 ≤ i then some 0 else none)) ∧
      rawConfluences flatDf = [] ∧
      (∀ asset now, generate_signal asset flatInput now = none) := by
  refine ⟨by with_unfolding_all decide, by with_unfolding_all rfl, ?_⟩
  intro asset now
  cases hk : is_in_kill_zone now with
  | false => exact generate_signal_closed_gate asset flatInput now hk
  | true =>
    show generate_signal asset (.frame (frameOf flatDf)) now = none
    rw [generate_signal_eq_core asset now (by with_unfolding_all rfl : validInput
      (.frame (frameOf flatDf)) = some flatDf) hk]
    have hraw : rawConfluences flatDf = [] := by with_unfolding_all rfl
    unfold signal_core
    simp only [hraw, List.length_nil]
    cases flatDf.getLast? with
    | none => rfl
    | some lastC =>
      cases atrLast flatDf with
      | none => rfl
      | some a => simp

/-- C2 witness: the amended theorem's first part applied at index 20
(inside the series, where the ATR window is full), together with its
no-signal part at a kill-zone instant. -/
theorem c2_witness :
    (20 : Nat) < 60 ∧ atr flatDf 14 20 = some 0 ∧
      generate_signal "Gold" flatInput 10800 = none := by
  have h := c2_flat_series_emits_nothing.1 20 (by norm_num)
  rw [if_pos (by norm_num : (13 : Nat) ≤ 20)] at h
  exact ⟨by norm_num, h, c2_flat_series_emits_nothing.2.2 "Gold" 10800⟩

/-- Helper: whatever `signal_core` emits was gated by the raw confluence
count and carries the majority-vote direction. -/
theorem signal_core_some_elim {asset : String} {df : List Candle} {now : Nat}
    {s : Signal} (h : signal_core asset df now = some s) :
    3 ≤ (rawConfluences df).length ∧ s.direction = signalDirection df := by
  cases hlast : df.getLast? with
  | none => simp [signal_core, hlast] at h
  | some lastC =>
    cases hatr : atrLast df with
    | none => simp [signal_core, hlast, hatr] at h
    | some a =>
      simp only [signal_core, hlast, hatr] at h
      by_cases h3 : 3 ≤ (rawConfluences df).length
      · rw [if_pos h3] at h
        cases hr : calculate_risk_params df (signalDirection df) lastC.close 2 with
        | none => rw [hr] at h; exact absurd h (by simp)
        | some pr =>
          rw [hr] at h
          obtain ⟨sl, tp⟩ := pr
          have h' : some
              ({ asset := asset, direction := signalDirection df,
                 entry := py_round5 lastC.close,
                 stop_loss := py_round5 sl, take_profit := py_round5 tp,
                 kill_zone := killZoneLabel now,
                 setup := (rawConfluences df).eraseDups,
                 risk_pct := min 1 (|lastC.close - sl| / lastC.close * 100),
                 confidenceNum := max (bullishCount df) (bearishCount df),
                 confidenceDen := (rawConfluences df).length } : Signal) = some s := h
          injection h' with h'
          exact ⟨h3, by rw [← h']⟩
      · rw [if_neg h3] at h
        exact absurd h (by simp)

/-- Helper: a nonempty validated series with a defined last ATR and at
least 3 raw confluences makes `signal_core` emit. -/
theorem signal_core_emits {asset : String} {df : List Candle} {now : Nat}
    {lastC : Candle} {a : ℚ} (hlast : df.getLast? = some lastC)
    (hatr : atrLast df = some a) (h3 : 3 ≤ (rawConfluences df).length) :
    ∃ s, signal_core asset df now = some s := by
  simp only [signal_core, hlast, hatr]
  rw [if_pos h3]
  unfold calculate_risk_params
  rw [hatr]
  cases signalDirection df
  · exact ⟨_, rfl⟩
  · exact ⟨_, rfl⟩

/-- C5: for every validated input, `generate_signal` never returns a
signal when the raw (non-deduplicated) confluence count is exactly 2; it
returns one whenever the count is exactly 3 with a strict directional
majority, the gate open and a defined (finite) last ATR; and every
emitted signal's direction is BUY exactly when the bullish counter
strictly exceeds the bearish one (so ties yield SELL). -/
theorem c5_confluence_threshold_and_direction (asset : String)
    (input : GSInput) (now : Nat) (df : List Candle)
    (hv : validInput input = some df) :
    ((rawConfluences df).length = 2 → generate_signal asset input now = none) ∧
      (is_in_kill_zone now = true → (rawConfluences df).length = 3 →
        bullishCount df ≠ bearishCount df → (atrLast df).isSome = true →
        ∃ s, generate_signal asset input now = some s) ∧
      (∀ s, generate_signal asset input now = some s →
        (s.direction = Direction.BUY ↔ bearishCount df < bullishCount df)) := by
  cases input with
  | notAFrame => simp [validInput] at hv
  | frame f =>
    refine ⟨?_, ?_, ?_⟩
    · intro h2
      cases hk : is_in_kill_zone now with
      | false => exact generate_signal_closed_gate asset _ now hk
      | true =>
        rw [generate_signal_eq_core asset now hv hk]
        cases hlast : df.getLast? with
        | none => simp [signal_core, hlast]
        | some lastC =>
          cases hatr : atrLast df with
          | none => simp [signal_core, hlast, hatr]
          | some a =>
            simp only [signal_core, hlast, hatr]
            rw [if_neg (by rw [h2]; norm_num)]
    · intro hk h3 hne hsome
      rw [generate_signal_eq_core asset now hv hk]
      obtain ⟨h0, _, _, hparse⟩ := validInput_some_elim hv
      have hdflen : df.length = f.rows.length := mapM_parseRow_length hparse
      have hne' : df ≠ [] := by
        intro hnil
        rw [hnil] at hdflen
        exact h0 hdflen.symm
      obtain ⟨lastC, hlast⟩ : ∃ c, df.getLast? = some c := by
        cases hl : df.getLast? with
        | none => exact absurd (List.getLast?_eq_none_iff.mp hl) hne'
        | some c => exact ⟨c, rfl⟩
      obtain ⟨a, hatr⟩ := Option.isSome_iff_exists.mp hsome
      exact signal_core_emits hlast hatr (by omega)
    · intro s hs
      cases hk : is_in_kill_zone now with
      | false =>
        rw [generate_signal_closed_gate asset _ now hk] at hs
        exact absurd hs (by simp)
      | true =>
        rw [generate_signal_eq_core asset now hv hk] at hs
        have hdir := (signal_core_some_elim hs).2
        rw [hdir]
        unfold signalDirection
        by_cases hbb : bearishCount df < bullishCount df
        · rw [if_pos hbb]
          simp [hbb]
        · rw [if_neg hbb]
          constructor
          · intro habs
            exact absurd habs (by simp)
          · intro h
            exact absurd h hbb

/-- C5 witness: the engineered series `bosDf` (validated, in a kill zone,
raw count exactly 3, all bullish, finite ATR) makes `generate_signal`
emit a signal. -/
theorem c5_witness :
    validInput bosInput = some bosDf ∧ is_in_kill_zone 10800 = true ∧
      (rawConfluences bosDf).length = 3 ∧
      bullishCount bosDf ≠ bearishCount bosDf ∧
      (atrLast bosDf).isSome = true ∧
      ∃ s, generate_signal "EURUSD" bosInput 10800 = some s := by
  have hv : validInput bosInput = some bosDf := by with_unfolding_all rfl
  have h3 : (rawConfluences bosDf).length = 3 := by with_unfolding_all rfl
  have hne : bullishCount bosDf ≠ bearishCount bosDf := by
    with_unfolding_all decide
  have hsome : (atrLast bosDf).isSome = true := by with_unfolding_all rfl
  exact ⟨hv, rfl, h3, hne, hsome,
    (c5_confluence_threshold_and_direction "EURUSD" bosInput 10800 bosDf
      hv).2.1 rfl h3 hne hsome⟩

/-- Helper: the maximum of a negated list is the negated minimum. -/
theorem listMax_map_neg (xs : List ℚ) :
    listMax (xs.map (fun x => -x)) = (listMin xs).map (fun x => -x) := by
  induction xs with
  | nil => rfl
  | cons x xs ih =>
    simp only [List.map_cons, listMax, listMin, ih]
    cases listMin xs with
    | none => rfl
    | some m => simp [max_neg_neg]

/-- Helper: the minimum of a negated list is the negated maximum. -/
theorem listMin_map_neg (xs : List ℚ) :
    listMin (xs.map (fun x => -x)) = (listMax xs).map (fun x => -x) := by
  induction xs with
  | nil => rfl
  | cons x xs ih =>
    simp only [List.map_cons, listMax, listMin, ih]
    cases listMax xs with
    | none => rfl
    | some m => simp [min_neg_neg]

/-- Helper: highs of a mirrored slice are the negated lows of the
original slice. -/
theorem highs_slice_neg (df : List Candle) (a b : Nat) :
    highs (slice (negateSeries df) a b) =
      (lows (slice df a b)).map (fun x => -x) := by
  unfold highs lows slice negateSeries
  rw [← List.map_drop, ← List.map_take]
  simp only [List.map_map]
  refine List.map_eq_map_iff.mpr (fun c _ => ?_)
  simp [negateCandle]

/-- Helper: lows of a mirrored slice are the negated highs of the
original slice. -/
theorem lows_slice_neg (df : List Candle) (a b : Nat) :
    lows (slice (negateSeries df) a b) =
      (highs (slice df a b)).map (fun x => -x) := by
  unfold highs lows slice negateSeries
  rw [← List.map_drop, ← List.map_take]
  simp only [List.map_map]
  refine List.map_eq_map_iff.mpr (fun c _ => ?_)
  simp [negateCandle]

/-- Helper: a swing high of the mirrored series is a swing low of the
original, index for index. -/
theorem isSwingHigh_neg (df : List Candle) (lb i : Nat) :
    isSwingHigh (negateSeries df) lb i = isSwingLow df lb i := by
  unfold isSwingHigh isSwingLow
  rw [show (negateSeries df)[i]? = (df[i]?).map negateCandle from
    List.getElem?_map negateCandle df i]
  rw [highs_slice_neg, highs_slice_neg, listMax_map_neg, listMax_map_neg]
  cases df[i]? with
  | none => rfl
  | some c =>
    cases listMin (lows (slice df (i - lb) i)) with
    | none => rfl
    | some m1 =>
      cases listMin (lows (slice df (i + 1) (i + lb + 1))) with
      | none => rfl
      | some m2 => simp [negateCandle, neg_lt_neg_iff]

/-- Helper: a swing low of the mirrored series is a swing high of the
original, index for index. -/
theorem isSwingLow_neg (df : List Candle) (lb i : Nat) :
    isSwingLow (negateSeries df) lb i = isSwingHigh df lb i := by
  unfold isSwingHigh isSwingLow
  rw [show (negateSeries df)[i]? = (df[i]?).map negateCandle from
    List.getElem?_map negateCandle df i]
  rw [lows_slice_neg, lows_slice_neg, listMin_map_neg, listMin_map_neg]
  cases df[i]? with
  | none => rfl
  | some c =>
    cases listMax (highs (slice df (i - lb) i)) with
    | none => rfl
    | some m1 =>
      cases listMax (highs (slice df (i + 1) (i + lb + 1))) with
      | none => rfl
      | some m2 => simp [negateCandle, neg_lt_neg_iff]

/-- Helper: at one index, the mirrored series' pools are a permutation of
the swapped original pools (the two appends happen in the opposite order
when both a swing high and a swing low sit at the same index). -/
theorem poolsAt_neg_perm (df : List Candle) (lb i : Nat) :
    (poolsAt (negateSeries df) lb i).Perm ((poolsAt df lb i).map swapPool) := by
  unfold poolsAt
  rw [show (negateSeries df)[i]? = (df[i]?).map negateCandle from
    List.getElem?_map negateCandle df i]
  rw [isSwingHigh_neg, isSwingLow_neg]
  cases df[i]? with
  | none => simp
  | some c =>
    by_cases hH : isSwingHigh df lb i <;> by_cases hL : isSwingLow df lb i <;>
      simp [hH, hL, swapPool, negateCandle]
    exact List.Perm.swap _ _ _

/-- Helper: `flatMap` respects pointwise permutation. -/
theorem flatMap_perm {α β : Type} (l : List α) (f g : α → List β)
    (h : ∀ i, (f i).Perm (g i)) : (l.flatMap f).Perm (l.flatMap g) := by
  induction l with
  | nil => simp
  | cons x xs ih =>
    simp only [List.flatMap_cons]
    exact (h x).append ih

/-- Helper: the mirrored series' pool list is a permutation of the
swapped original pool list. -/
theorem detect_pools_neg_perm (df : List Candle) (lb : Nat) :
    (detect_liquidity_pools (negateSeries df) lb).Perm
      ((detect_liquidity_pools df lb).map swapPool) := by
  unfold detect_liquidity_pools
  rw [List.map_flatMap]
  rw [show (negateSeries df).length = df.length from List.length_map df negateCandle]
  exact flatMap_perm _ _ _ (fun i => poolsAt_neg_perm df lb i)

/-- C8: liquidity-pool detection is symmetric under price negation — the
mirrored series has a sell-side pool at an index exactly when the
original has a buy-side pool there, and vice versa, for any lookback. -/
theorem c8_pools_negation_symmetry (df : List Candle) (lb i : Nat) :
    ((∃ pr, (⟨.sellSide, i, pr⟩ : Pool) ∈
        detect_liquidity_pools (negateSeries df) lb) ↔
      ∃ pr, (⟨.buySide, i, pr⟩ : Pool) ∈ detect_liquidity_pools df lb) ∧
      ((∃ pr, (⟨.buySide, i, pr⟩ : Pool) ∈
          detect_liquidity_pools (negateSeries df) lb) ↔
        ∃ pr, (⟨.sellSide, i, pr⟩ : Pool) ∈ detect_liquidity_pools df lb) := by
  have hp := detect_pools_neg_perm df lb
  constructor
  · constructor
    · rintro ⟨pr, hm⟩
      obtain ⟨q, hq, heq⟩ := List.mem_map.mp (hp.mem_iff.mp hm)
      obtain ⟨qs, qi, qp⟩ := q
      cases qs
      · simp [swapPool] at heq
      · simp [swapPool] at heq
        obtain ⟨hqi, _⟩ := heq
        subst hqi
        exact ⟨qp, hq⟩
    · rintro ⟨pr, hm⟩
      exact ⟨-pr, hp.mem_iff.mpr (List.mem_map.mpr ⟨⟨.buySide, i, pr⟩, hm, rfl⟩)⟩
  · constructor
    · rintro ⟨pr, hm⟩
      obtain ⟨q, hq, heq⟩ := List.mem_map.mp (hp.mem_iff.mp hm)
      obtain ⟨qs, qi, qp⟩ := q
      cases qs
      · simp [swapPool] at heq
        obtain ⟨hqi, _⟩ := heq
        subst hqi
        exact ⟨qp, hq⟩
      · simp [swapPool] at heq
    · rintro ⟨pr, hm⟩
      exact ⟨-pr, hp.mem_iff.mpr (List.mem_map.mpr ⟨⟨.sellSide, i, pr⟩, hm, rfl⟩)⟩

end ICT
